import Mathlib

/-!
Verification of the fixcity authentication core.

This file gives a shallow embedding of the auth-relevant parts of the
repository — the `User` Mongoose document (src/backend/src/models/User.js),
the token utilities (src/backend/src/utils/tokenUtils.js together with the
env configuration src/backend/src/config/env.js), and the `AuthService`
operations (the current `authService.js` variant in src/unnamed/part_005,
lines 294-466) — and proves properties of the specification against it.

Modelling conventions:
- Timestamps are milliseconds since the epoch, as `Nat` (JS `Date.now()`).
- The Mongo collection is a `List User`; `findOne` is `List.find?` and a
  `save` of a loaded document writes it back by `_id`.
- External cryptographic primitives (bcrypt compare/hash, SHA-256,
  `jwt.sign`/`jwt.verify`) are opaque function parameters: the service code
  treats them as black boxes, and so do the theorems.
-/

namespace FixCity

/-- Milliseconds since the epoch, the result type of JS `Date.now()`. -/
abbrev Time := Nat

/-- A JSON-ish value appearing in a response object field. -/
inductive Value where
  | str : String → Value
  | nat : Nat → Value
  | bool : Bool → Value
  | null : Value
deriving DecidableEq, Repr

/-- The `User` document (src/backend/src/models/User.js) restricted to the
fields the auth service reads or writes.  `password` holds the stored bcrypt
hash (the pre-save hook hashes before persisting); `none` models an absent
(`undefined`) optional field. -/
structure User where
  id : Nat
  name : String
  email : String
  phone : String
  password : Option String
  role : String
  isActive : Bool
  isEmailVerified : Bool
  passwordResetToken : Option String
  passwordResetExpires : Option Time
  lastLogin : Option Time
  loginAttempts : Nat
  lockUntil : Option Time
deriving DecidableEq, Repr

/-- The `isLocked` virtual of the User schema:
`!!(this.lockUntil && this.lockUntil > Date.now())`. -/
def User.isLocked (u : User) (now : Time) : Bool :=
  match u.lockUntil with
  | some t => decide (now < t)
  | none => false

/-- `comparePassword` method of the User schema: returns `false` when no
hash is stored, otherwise the result of the bcrypt comparison (modelled by
the opaque `compare` parameter). -/
def User.comparePassword (compare : String → String → Bool) (u : User)
    (candidate : String) : Bool :=
  match u.password with
  | none => false
  | some h => compare candidate h

/-- `User.findOne({ email })` over the collection. -/
def findByEmail (db : List User) (email : String) : Option User :=
  db.find? (fun u => u.email == email)

/-- `User.findOne({ phone })` over the collection. -/
def findByPhone (db : List User) (phone : String) : Option User :=
  db.find? (fun u => u.phone == phone)

/-- `User.findOne({ email, isActive: true })` over the collection. -/
def findActiveByEmail (db : List User) (email : String) : Option User :=
  db.find? (fun u => u.email == email && u.isActive)

/-- `User.findById(id)` over the collection. -/
def findById (db : List User) (id : Nat) : Option User :=
  db.find? (fun u => u.id == id)

/-- The predicate of the query object
`{ passwordResetToken: hashed, passwordResetExpires: { $gt: Date.now() } }`. -/
def resetMatches (hashed : String) (now : Time) (u : User) : Bool :=
  u.passwordResetToken == some hashed &&
  match u.passwordResetExpires with
  | some e => decide (now < e)
  | none => false

/-- `User.findOne({ passwordResetToken: hashed, passwordResetExpires: { $gt: Date.now() } })`. -/
def findByResetToken (db : List User) (hashed : String) (now : Time) : Option User :=
  db.find? (resetMatches hashed now)

/-- `user.save()` on a loaded document: write the mutated document back
into the collection by `_id`. -/
def saveUser (db : List User) (u : User) : List User :=
  db.map (fun v => if v.id == u.id then u else v)

/-- The token pair returned by `generateTokens` in tokenUtils.js:
`{ accessToken, refreshToken }`, both opaque signed strings. -/
structure TokenPair where
  accessToken : String
  refreshToken : String
deriving DecidableEq, Repr

/-- The domain errors thrown by `AuthService` (spec taxonomy names). -/
inductive AuthError where
  | DuplicateEmail
  | DuplicatePhone
  | InvalidCredentials
  | AccountLocked
  | InvalidRefreshToken
  | UserNotFound
  | InvalidOrExpiredToken
deriving DecidableEq, Repr

/-- The Spanish `Error` message the service throws for each domain error. -/
def AuthError.message : AuthError → String
  | .DuplicateEmail => "El email ya está registrado"
  | .DuplicatePhone => "El telefono ya esta registrado"
  | .InvalidCredentials => "Credenciales invalidas"
  | .AccountLocked => "Cuenta bloqueada temporalmente"
  | .InvalidRefreshToken => "Refresh token invalido"
  | .UserNotFound => "Usuario no encontrado"
  | .InvalidOrExpiredToken => "Token inválido o expirado"

/-- The `user` object literal that `register` and `login` return:
`{ id, name, email, phone, role, isEmailVerified }`, modelled as the
ordered key/value list the JS object literal builds. -/
def userPublic (u : User) : List (String × Value) :=
  [("id", Value.nat u.id),
   ("name", Value.str u.name),
   ("email", Value.str u.email),
   ("phone", Value.str u.phone),
   ("role", Value.str u.role),
   ("isEmailVerified", Value.bool u.isEmailVerified)]

/-- The `{ user: {...}, ...tokens }` object `register` and `login` resolve with. -/
structure AuthResponse where
  user : List (String × Value)
  accessToken : String
  refreshToken : String
deriving DecidableEq, Repr

/-- Builds the `AuthResponse` from the (possibly mutated) document and the
freshly generated token pair, as the return statements of `register`/`login` do. -/
def authResponse (gen : Nat → TokenPair) (u : User) : AuthResponse :=
  { user := userPublic u
    accessToken := (gen u.id).accessToken
    refreshToken := (gen u.id).refreshToken }

/-- The request body passed to `register`.  The current service destructures
only `name`, `email`, `phone` and `password`; any `role` value a client
supplies is carried here to show it is ignored. -/
structure RegisterData where
  name : String
  email : String
  phone : String
  password : String
  role : Option String
deriving DecidableEq, Repr

/-- `new User({ name, email, phone, password })` followed by the pre-save
hashing hook and the schema defaults (`role: 'citizen'`, `isActive: true`,
`isEmailVerified: true`, `loginAttempts: 0`, `lastLogin: null`). -/
def createUser (pwHash : String → String) (freshId : Nat) (d : RegisterData) : User :=
  { id := freshId
    name := d.name
    email := d.email
    phone := d.phone
    password := some (pwHash d.password)
    role := "citizen"
    isActive := true
    isEmailVerified := true
    passwordResetToken := none
    passwordResetExpires := none
    lastLogin := none
    loginAttempts := 0
    lockUntil := none }

/-- `AuthService.register` (src/unnamed/part_005, lines 303-338): duplicate
email check, duplicate phone check, create + save, issue tokens, respond. -/
def register (gen : Nat → TokenPair) (pwHash : String → String)
    (db : List User) (freshId : Nat) (d : RegisterData) :
    Except AuthError AuthResponse × List User :=
  match findByEmail db d.email with
  | some _ => (.error .DuplicateEmail, db)
  | none =>
    match findByPhone db d.phone with
    | some _ => (.error .DuplicatePhone, db)
    | none =>
      let u := createUser pwHash freshId d
      (.ok (authResponse gen u), db ++ [u])

/-- `AuthService.handleFailedLogin` (lines 445-456): increment
`loginAttempts`; once the new count reaches `maxAttempts = 5`, set
`lockUntil = Date.now() + 2*60*60*1000`. -/
def handleFailedLogin (now : Time) (u : User) : User :=
  let attempts := u.loginAttempts + 1
  let u := { u with loginAttempts := attempts }
  if 5 ≤ attempts then { u with lockUntil := some (now + 2 * 60 * 60 * 1000) }
  else u

/-- `AuthService.handleSuccessfulLogin` (lines 458-463): zero the counter,
clear the lock, stamp `lastLogin`. -/
def handleSuccessfulLogin (now : Time) (u : User) : User :=
  { u with loginAttempts := 0, lockUntil := none, lastLogin := some now }

/-- The observable outcome of one `login` call: the resolved/ rejected
value, the collection after any `save`, and whether `comparePassword` was
ever invoked (to witness the order of the lock check and the comparison). -/
structure LoginOutcome where
  result : Except AuthError AuthResponse
  db : List User
  comparedPassword : Bool
deriving Repr

/-- `AuthService.login` (lines 340-362): load the active user (with the
hidden `password`/`lockUntil` fields selected), reject unknown users, then
reject locked accounts BEFORE comparing the password, then branch on the
bcrypt comparison, invoking the failed/successful transition. -/
def login (gen : Nat → TokenPair) (compare : String → String → Bool)
    (db : List User) (now : Time) (email password : String) : LoginOutcome :=
  match findActiveByEmail db email with
  | none => ⟨.error .InvalidCredentials, db, false⟩
  | some u =>
    if u.isLocked now then ⟨.error .AccountLocked, db, false⟩
    else if u.comparePassword compare password then
      let u' := handleSuccessfulLogin now u
      ⟨.ok (authResponse gen u'), saveUser db u', true⟩
    else
      let u' := handleFailedLogin now u
      ⟨.error .InvalidCredentials, saveUser db u', true⟩

/-- The distinct reasons the body of `refreshToken`'s `try` block can throw. -/
inductive RefreshRaw where
  | verifyFailed
  | userInvalid
deriving DecidableEq, Repr

/-- The `try` block of `AuthService.refreshToken` (lines 379-387):
`verifyRefreshToken`, then `findById`, then the missing/inactive check,
then a fresh token pair.  `verify` models `jwt.verify` against the refresh
secret: `none` when it throws, `some userId` when it decodes. -/
def refreshInner (gen : Nat → TokenPair) (verify : String → Option Nat)
    (db : List User) (tok : String) : Except RefreshRaw TokenPair :=
  match verify tok with
  | none => .error .verifyFailed
  | some uid =>
    match findById db uid with
    | none => .error .userInvalid
    | some u =>
      if u.isActive then .ok (gen u.id)
      else .error .userInvalid

/-- `AuthService.refreshToken` (lines 378-391): the surrounding
`catch` collapses every failure into the single `InvalidRefreshToken`. -/
def refresh (gen : Nat → TokenPair) (verify : String → Option Nat)
    (db : List User) (tok : String) : Except AuthError TokenPair :=
  match refreshInner gen verify db tok with
  | .ok t => .ok t
  | .error _ => .error .InvalidRefreshToken

/-- The object `forgotPassword` resolves with: always a `message`, and a
`resetToken` field only on the existing-account branch. -/
structure ForgotResult where
  message : String
  resetToken : Option String
deriving DecidableEq, Repr

/-- `AuthService.forgotPassword` (lines 401-421).  `freshToken` stands for
the random `generateResetToken()` output; `hash` for SHA-256 hex.  The
reset-token hash expires 10 minutes (`10*60*1000` ms) after `now`. -/
def forgotPassword (hash : String → String) (db : List User) (now : Time)
    (email : String) (freshToken : String) : ForgotResult × List User :=
  match findActiveByEmail db email with
  | none =>
    (⟨"Si el email existe, recibirás instrucciones para resetear tu contraseña",
      none⟩, db)
  | some u =>
    let hashedToken := hash freshToken
    let u' := { u with
      passwordResetToken := some hashedToken
      passwordResetExpires := some (now + 10 * 60 * 1000) }
    (⟨"Token de reset enviado al email", some freshToken⟩, saveUser db u')

/-- The mutation `resetPassword` applies to the matched document before
saving: new password (re-hashed by the pre-save hook), both reset-token
fields cleared, lockout counter and lock cleared. -/
def resetUpdate (pwHash : String → String) (newPassword : String) (u : User) : User :=
  { u with
    password := some (pwHash newPassword)
    passwordResetToken := none
    passwordResetExpires := none
    loginAttempts := 0
    lockUntil := none }

/-- `AuthService.resetPassword` (lines 423-443): look up by token hash with
an unexpired expiry, reject otherwise, else apply `resetUpdate` and save. -/
def resetPassword (hash pwHash : String → String) (db : List User) (now : Time)
    (token newPassword : String) : Except AuthError String × List User :=
  match findByResetToken db (hash token) now with
  | none => (.error .InvalidOrExpiredToken, db)
  | some u =>
    let u' := resetUpdate pwHash newPassword u
    (.ok "Contraseña actualizada exitosamente", saveUser db u')

/-- `AuthService.logout` (lines 393-399): a pure presence check. -/
def logout (db : List User) (userId : Nat) : Except AuthError String :=
  match findById db userId with
  | some _ => .ok "Logout exitoso"
  | none => .error .UserNotFound

/-! ### The Token Service startup path (env.js + tokenUtils.js) -/

/-- The JWT part of the `env` object (src/backend/src/config/env.js,
lines 107-111): the four values are read straight from `process.env` with
no default and no validation, so each may be absent (`undefined`). -/
structure EnvJwtConfig where
  JWT_SECRET : Option String
  JWT_REFRESH_SECRET : Option String
deriving DecidableEq, Repr

/-- The module-level constants of tokenUtils.js after import. -/
structure TokenUtilsState where
  jwtSecret : Option String
  jwtRefreshSecret : Option String
deriving DecidableEq, Repr

/-- The error the spec says startup should raise on a missing secret. -/
inductive StartupError where
  | ConfigurationError
deriving DecidableEq, Repr

/-- The error `jwt.sign`/`jwt.verify` raise when handed an undefined
secret (`secretOrPrivateKey must have a value`). -/
inductive JwtError where
  | missingSecretKey
deriving DecidableEq, Repr

/-- Module initialization of tokenUtils.js (lines 84-87): copy the four
env values into module constants.  Neither env.js nor tokenUtils.js checks
the JWT secrets (env.js lines 114-116 only warn about missing Mongo
credentials), so initialization always succeeds. -/
def tokenUtilsInit (cfg : EnvJwtConfig) : Except StartupError TokenUtilsState :=
  .ok ⟨cfg.JWT_SECRET, cfg.JWT_REFRESH_SECRET⟩

/-- `jwt.sign({ userId }, secret, ...)`: the jsonwebtoken library throws
when the secret is `undefined`; otherwise it returns the signed string,
modelled by the opaque `sign` parameter. -/
def jwtSign (sign : Nat → String → String) (uid : Nat) (secret : Option String) :
    Except JwtError String :=
  match secret with
  | none => .error .missingSecretKey
  | some s => .ok (sign uid s)

/-- `generateTokens(userId)` (tokenUtils.js lines 89-100): sign the access
token with the access secret, then the refresh token with the refresh
secret. -/
def generateTokensU (sign : Nat → String → String) (st : TokenUtilsState)
    (uid : Nat) : Except JwtError TokenPair :=
  match jwtSign sign uid st.jwtSecret with
  | .error e => .error e
  | .ok a =>
    match jwtSign sign uid st.jwtRefreshSecret with
    | .error e => .error e
    | .ok r => .ok ⟨a, r⟩

/-! ### Concrete instances used to exercise the model -/

/-- A concrete token generator standing in for `generateTokens`. -/
def genDemo : Nat → TokenPair :=
  fun n => ⟨"access" ++ toString n, "refresh" ++ toString n⟩

/-- A concrete stand-in for `bcrypt.compare`: the candidate matches
exactly its own stored hash. -/
def cmpDemo : String → String → Bool := fun candidate h => candidate == h

/-- A concrete injective stand-in for the SHA-256 hex digest. -/
def hashDemo : String → String := fun s => "sha256:" ++ s

/-- A concrete stand-in for the bcrypt pre-save hash. -/
def pwHashDemo : String → String := fun s => s

/-- A concrete stand-in for the raw `jwt.sign` signature. -/
def signDemo : Nat → String → String := fun uid s => s ++ "." ++ toString uid

/-- A concrete stand-in for `verifyRefreshToken`: only the literal token
string "good-refresh" decodes, to user id 1. -/
def verifyDemo : String → Option Nat :=
  fun t => if t == "good-refresh" then some 1 else none

/-- A registered citizen with four failed attempts on record. -/
def anaUser : User :=
  { id := 1
    name := "Ana"
    email := "ana@x.com"
    phone := "+15551234567"
    password := some "Passw0rd!"
    role := "citizen"
    isActive := true
    isEmailVerified := true
    passwordResetToken := none
    passwordResetExpires := none
    lastLogin := none
    loginAttempts := 4
    lockUntil := none }

/-- `anaUser` after the fifth failed attempt locked the account. -/
def lockedAna : User :=
  { anaUser with loginAttempts := 5, lockUntil := some (1000 + 2 * 60 * 60 * 1000) }

/-- `anaUser` with five failed attempts and an already-expired lock. -/
def expiredLockAna : User :=
  { anaUser with loginAttempts := 5, lockUntil := some 500 }

/-- `anaUser` holding an unexpired password-reset token hash. -/
def resetAna : User :=
  { anaUser with
    loginAttempts := 5
    lockUntil := some (1000 + 2 * 60 * 60 * 1000)
    passwordResetToken := some (hashDemo "tok")
    passwordResetExpires := some 2000 }

/-- A registration request that tries to smuggle in an admin role. -/
def regAdminAttempt : RegisterData :=
  { name := "Eve"
    email := "eve@x.com"
    phone := "+15550000001"
    password := "Passw0rd!"
    role := some "admin" }

/-- A plain registration request. -/
def regAna : RegisterData :=
  { name := "Ana"
    email := "ana@x.com"
    phone := "+15551234567"
    password := "Passw0rd!"
    role := none }

/-! ### Helper lemmas -/

/-- The key list of every `userPublic` object, in construction order. -/
theorem userPublic_keys (u : User) :
    (userPublic u).map Prod.fst =
      ["id", "name", "email", "phone", "role", "isEmailVerified"] := rfl

/-- `resetMatches` unfolded into a proposition about the stored fields. -/
theorem resetMatches_iff (hashed : String) (now : Time) (u : User) :
    resetMatches hashed now u = true ↔
      (u.passwordResetToken = some hashed ∧
        ∃ e, u.passwordResetExpires = some e ∧ now < e) := by
  cases hx : u.passwordResetExpires <;>
    simp [resetMatches, hx, beq_iff_eq]

/-! ### Claims -/

/-- C1: for every active user found by `login`, a failed (wrong-password)
attempt increments `loginAttempts` by one and, once the new count reaches
5, sets `lockUntil = now + 2 hours`; and while the lock is in the future,
`login` rejects with `AccountLocked` for every candidate password — the
correct one included — without ever invoking the password comparison
(the lock check precedes `comparePassword`). -/
theorem login_lockout_policy (gen : Nat → TokenPair)
    (compare : String → String → Bool) (db : List User) (now : Time)
    (email password : String) (u : User)
    (hfind : findActiveByEmail db email = some u) :
    (u.isLocked now = false → u.comparePassword compare password = false →
      (login gen compare db now email password).result
          = .error .InvalidCredentials ∧
      (login gen compare db now email password).db
          = saveUser db (handleFailedLogin now u) ∧
      (handleFailedLogin now u).loginAttempts = u.loginAttempts + 1 ∧
      (5 ≤ u.loginAttempts + 1 →
        (handleFailedLogin now u).lockUntil
            = some (now + 2 * 60 * 60 * 1000)) ∧
      (u.loginAttempts + 1 < 5 →
        (handleFailedLogin now u).lockUntil = u.lockUntil)) ∧
    (u.isLocked now = true →
      (login gen compare db now email password).result = .error .AccountLocked ∧
      (login gen compare db now email password).comparedPassword = false) := by
  constructor
  · intro hnl hpw
    refine ⟨?_, ?_, ?_, ?_, ?_⟩
    · simp [login, hfind, hnl, hpw]
    · simp [login, hfind, hnl, hpw]
    · by_cases h5 : 5 ≤ u.loginAttempts + 1 <;> simp [handleFailedLogin, h5]
    · intro h5
      simp [handleFailedLogin, h5]
    · intro h5
      simp [handleFailedLogin, Nat.not_le.mpr h5]
  · intro hl
    constructor <;> simp [login, hfind, hl]

/-- Witness for C1: with Ana at four failed attempts, a fifth wrong
password is rejected as `InvalidCredentials` and produces the two-hour
lock; on the locked account the correct password is rejected as
`AccountLocked` with the comparison never invoked. -/
theorem login_lockout_policy_witness :
    ((login genDemo cmpDemo [anaUser] 1000 "ana@x.com" "wrong").result
        = .error .InvalidCredentials ∧
      (handleFailedLogin 1000 anaUser).loginAttempts = 5 ∧
      (handleFailedLogin 1000 anaUser).lockUntil
        = some (1000 + 2 * 60 * 60 * 1000)) ∧
    ((login genDemo cmpDemo [lockedAna] 1000 "ana@x.com" "Passw0rd!").result
        = .error .AccountLocked ∧
      (login genDemo cmpDemo [lockedAna] 1000 "ana@x.com" "Passw0rd!").comparedPassword
        = false) := by
  have h1 := login_lockout_policy genDemo cmpDemo [anaUser] 1000
    "ana@x.com" "wrong" anaUser (by decide)
  have h2 := login_lockout_policy genDemo cmpDemo [lockedAna] 1000
    "ana@x.com" "Passw0rd!" lockedAna (by decide)
  have ⟨c1, _, c3, c4, _⟩ := h1.1 (by decide) (by decide)
  exact ⟨⟨c1, by simpa using c3, c4 (by decide)⟩, h2.2 (by decide)⟩

/-- C7: the successful-login transition zeroes `failedLoginCount`
(`loginAttempts`), clears `lockedUntil` (`lockUntil`), stamps `lastLogin`
with the current time, leaves every other user field unchanged, and
`login` persists exactly that record via `save`. -/
theorem successful_login_transition (gen : Nat → TokenPair)
    (compare : String → String → Bool) (db : List User) (now : Time)
    (email password : String) (u : User)
    (hfind : findActiveByEmail db email = some u)
    (hnl : u.isLocked now = false)
    (hpw : u.comparePassword compare password = true) :
    (handleSuccessfulLogin now u).loginAttempts = 0 ∧
    (handleSuccessfulLogin now u).lockUntil = none ∧
    (handleSuccessfulLogin now u).lastLogin = some now ∧
    (handleSuccessfulLogin now u).id = u.id ∧
    (handleSuccessfulLogin now u).name = u.name ∧
    (handleSuccessfulLogin now u).email = u.email ∧
    (handleSuccessfulLogin now u).phone = u.phone ∧
    (handleSuccessfulLogin now u).password = u.password ∧
    (handleSuccessfulLogin now u).role = u.role ∧
    (handleSuccessfulLogin now u).isActive = u.isActive ∧
    (handleSuccessfulLogin now u).isEmailVerified = u.isEmailVerified ∧
    (handleSuccessfulLogin now u).passwordResetToken = u.passwordResetToken ∧
    (handleSuccessfulLogin now u).passwordResetExpires = u.passwordResetExpires ∧
    (login gen compare db now email password).result
        = .ok (authResponse gen (handleSuccessfulLogin now u)) ∧
    (login gen compare db now email password).db
        = saveUser db (handleSuccessfulLogin now u) := by
  refine ⟨rfl, rfl, rfl, rfl, rfl, rfl, rfl, rfl, rfl, rfl, rfl, rfl, rfl, ?_, ?_⟩ <;>
    simp [login, hfind, hnl, hpw]

/-- Witness for C7: Ana logs in with the correct password; the persisted
record has a zeroed counter, no lock, and `lastLogin = 1000`. -/
theorem successful_login_transition_witness :
    (handleSuccessfulLogin 1000 anaUser).loginAttempts = 0 ∧
    (handleSuccessfulLogin 1000 anaUser).lockUntil = none ∧
    (handleSuccessfulLogin 1000 anaUser).lastLogin = some 1000 ∧
    (login genDemo cmpDemo [anaUser] 1000 "ana@x.com" "Passw0rd!").result
        = .ok (authResponse genDemo (handleSuccessfulLogin 1000 anaUser)) ∧
    (login genDemo cmpDemo [anaUser] 1000 "ana@x.com" "Passw0rd!").db
        = saveUser [anaUser] (handleSuccessfulLogin 1000 anaUser) := by
  have h := successful_login_transition genDemo cmpDemo [anaUser] 1000
    "ana@x.com" "Passw0rd!" anaUser (by decide) (by decide) (by decide)
  exact ⟨h.1, h.2.1, h.2.2.1, h.2.2.2.2.2.2.2.2.2.2.2.2.2.1,
    h.2.2.2.2.2.2.2.2.2.2.2.2.2.2⟩

/-- C9: `handleFailedLogin` always increments the counter (time alone
never resets it), and because the lock condition is `count >= 5`, an
account whose previous lock has expired with the counter still at or
above 5 is immediately re-locked for another 2 hours by the very next
failed login attempt. -/
theorem failed_login_relock (gen : Nat → TokenPair)
    (compare : String → String → Bool) (db : List User) (now : Time)
    (email password : String) (u : User) (tlock : Time)
    (hfind : findActiveByEmail db email = some u)
    (hlock : u.lockUntil = some tlock)
    (hexp : tlock ≤ now)
    (hcnt : 5 ≤ u.loginAttempts)
    (hpw : u.comparePassword compare password = false) :
    (∀ v : User, ∀ t : Time,
      (handleFailedLogin t v).loginAttempts = v.loginAttempts + 1) ∧
    (login gen compare db now email password).result
        = .error .InvalidCredentials ∧
    (login gen compare db now email password).db
        = saveUser db (handleFailedLogin now u) ∧
    (handleFailedLogin now u).lockUntil = some (now + 2 * 60 * 60 * 1000) ∧
    (handleFailedLogin now u).isLocked now = true := by
  have hnl : u.isLocked now = false := by
    simp [User.isLocked, hlock]
    exact hexp
  have h5 : 5 ≤ u.loginAttempts + 1 := Nat.le_succ_of_le hcnt
  refine ⟨?_, ?_, ?_, ?_, ?_⟩
  · intro v t
    by_cases hv : 5 ≤ v.loginAttempts + 1 <;> simp [handleFailedLogin, hv]
  · simp [login, hfind, hnl, hpw]
  · simp [login, hfind, hnl, hpw]
  · simp [handleFailedLogin, h5]
  · simp [handleFailedLogin, h5, User.isLocked]

/-- Witness for C9: Ana has five failed attempts and a lock that expired
at 500; at time 1000 another wrong password re-locks her until 7201000. -/
theorem failed_login_relock_witness :
    (login genDemo cmpDemo [expiredLockAna] 1000 "ana@x.com" "wrong").result
        = .error .InvalidCredentials ∧
    (handleFailedLogin 1000 expiredLockAna).lockUntil
        = some (1000 + 2 * 60 * 60 * 1000) ∧
    (handleFailedLogin 1000 expiredLockAna).isLocked 1000 = true := by
  have h := failed_login_relock genDemo cmpDemo [expiredLockAna] 1000
    "ana@x.com" "wrong" expiredLockAna 500 (by decide) (by decide)
    (by decide) (by decide) (by decide)
  exact ⟨h.2.1, h.2.2.2.1, h.2.2.2.2⟩

/-- C2: `resetPassword` rejects with `InvalidOrExpiredToken` exactly when
no stored user matches the hash of the supplied token with an unexpired
expiry; on a match it sets the new password, clears both reset-token
fields and the lockout counter/lock and persists; and — provided the
matched user is the sole holder of that token hash, as the random
64-hex-character tokens guarantee in practice — an immediate second call
with the same raw token is rejected (single use). -/
theorem reset_password_single_use (hash pwHash : String → String)
    (db : List User) (now : Time) (token newPassword : String) :
    ((resetPassword hash pwHash db now token newPassword).fst
        = .error .InvalidOrExpiredToken ↔
      findByResetToken db (hash token) now = none) ∧
    (findByResetToken db (hash token) now = none ↔
      ∀ u ∈ db, ¬(u.passwordResetToken = some (hash token) ∧
        ∃ e, u.passwordResetExpires = some e ∧ now < e)) ∧
    (∀ u, findByResetToken db (hash token) now = some u →
      (resetPassword hash pwHash db now token newPassword).fst
          = .ok "Contraseña actualizada exitosamente" ∧
      (resetPassword hash pwHash db now token newPassword).snd
          = saveUser db (resetUpdate pwHash newPassword u) ∧
      (resetUpdate pwHash newPassword u).password = some (pwHash newPassword) ∧
      (resetUpdate pwHash newPassword u).passwordResetToken = none ∧
      (resetUpdate pwHash newPassword u).passwordResetExpires = none ∧
      (resetUpdate pwHash newPassword u).loginAttempts = 0 ∧
      (resetUpdate pwHash newPassword u).lockUntil = none ∧
      ((∀ v ∈ db, v.passwordResetToken = some (hash token) → v.id = u.id) →
        ∀ newPassword2,
          (resetPassword hash pwHash
              (resetPassword hash pwHash db now token newPassword).snd
              now token newPassword2).fst
            = .error .InvalidOrExpiredToken)) := by
  refine ⟨?_, ?_, ?_⟩
  · cases hres : findByResetToken db (hash token) now <;>
      simp [resetPassword, hres]
  · unfold findByResetToken
    rw [List.find?_eq_none]
    simp only [resetMatches_iff]
  · intro u hu
    have hsnd : (resetPassword hash pwHash db now token newPassword).snd
        = saveUser db (resetUpdate pwHash newPassword u) := by
      simp [resetPassword, hu]
    refine ⟨by simp [resetPassword, hu], hsnd, rfl, rfl, rfl, rfl, rfl, ?_⟩
    intro huniq newPassword2
    rw [hsnd]
    have hnone : findByResetToken
        (saveUser db (resetUpdate pwHash newPassword u)) (hash token) now
          = none := by
      unfold findByResetToken
      rw [List.find?_eq_none]
      intro v hv
      unfold saveUser at hv
      rcases List.mem_map.1 hv with ⟨w, hw, rfl⟩
      by_cases hid : w.id = u.id
      · have hsel : (if w.id == (resetUpdate pwHash newPassword u).id
            then resetUpdate pwHash newPassword u else w)
            = resetUpdate pwHash newPassword u := by
          simp [resetUpdate, hid]
        rw [hsel, resetMatches_iff]
        simp [resetUpdate]
      · have hsel : (if w.id == (resetUpdate pwHash newPassword u).id
            then resetUpdate pwHash newPassword u else w) = w := by
          simp [resetUpdate, hid]
        rw [hsel, resetMatches_iff]
        rintro ⟨h1, -⟩
        exact hid (huniq w hw h1)
    simp [resetPassword, hnone]

/-- Witness for C2: Ana holds the hash of "tok" expiring at 2000; at time
1000 the reset succeeds and clears the lockout state, and replaying the
same raw token immediately afterwards is rejected. -/
theorem reset_password_single_use_witness :
    (resetPassword hashDemo pwHashDemo [resetAna] 1000 "tok" "NewPass123").fst
        = .ok "Contraseña actualizada exitosamente" ∧
    (resetUpdate pwHashDemo "NewPass123" resetAna).loginAttempts = 0 ∧
    (resetUpdate pwHashDemo "NewPass123" resetAna).lockUntil = none ∧
    (resetPassword hashDemo pwHashDemo
        (resetPassword hashDemo pwHashDemo [resetAna] 1000 "tok" "NewPass123").snd
        1000 "tok" "Again123").fst
      = .error .InvalidOrExpiredToken := by
  have h := (reset_password_single_use hashDemo pwHashDemo [resetAna] 1000
    "tok" "NewPass123").2.2 resetAna (by decide)
  exact ⟨h.1, h.2.2.2.2.2.1, h.2.2.2.2.2.2.1,
    h.2.2.2.2.2.2.2 (by decide) "Again123"⟩

/-- C3 counterexample: `forgotPassword` does NOT return the same message
in both cases.  With Ana registered and active, the existing email yields
"Token de reset enviado al email" while an unknown email yields the
generic "Si el email existe, recibirás instrucciones para resetear tu
contraseña" — so the observable message does depend on account existence,
refuting the claim at this concrete pair of inputs. -/
theorem forgot_password_message_counterexample :
    (forgotPassword hashDemo [anaUser] 1000 "ana@x.com" "tok").fst.message
        = "Token de reset enviado al email" ∧
    (forgotPassword hashDemo [anaUser] 1000 "bob@x.com" "tok").fst.message
        = "Si el email existe, recibirás instrucciones para resetear tu contraseña" ∧
    (forgotPassword hashDemo [anaUser] 1000 "ana@x.com" "tok").fst.message
      ≠ (forgotPassword hashDemo [anaUser] 1000 "bob@x.com" "tok").fst.message := by
  refine ⟨rfl, rfl, ?_⟩
  decide

/-- C3 amended: `forgotPassword` resolves successfully whether or not an
active user with the email exists, but with two different fixed messages;
the no-account branch returns the generic message, carries no `resetToken`
field, and leaves the store untouched, while the account branch returns
"Token de reset enviado al email" together with the raw token and persists
the token hash with a 10-minute expiry. -/
theorem forgot_password_amended (hash : String → String) (db : List User)
    (now : Time) (email freshToken : String) :
    (findActiveByEmail db email = none →
      forgotPassword hash db now email freshToken =
        (⟨"Si el email existe, recibirás instrucciones para resetear tu contraseña",
          none⟩, db)) ∧
    (∀ u, findActiveByEmail db email = some u →
      (forgotPassword hash db now email freshToken).fst =
        ⟨"Token de reset enviado al email", some freshToken⟩ ∧
      (forgotPassword hash db now email freshToken).snd =
        saveUser db { u with
          passwordResetToken := some (hash freshToken)
          passwordResetExpires := some (now + 10 * 60 * 1000) }) := by
  constructor
  · intro hnone
    simp [forgotPassword, hnone]
  · intro u hu
    constructor <;> simp [forgotPassword, hu]

/-- Witness for the amended C3: with only Ana in the store, the unknown
email gets the generic message and no token, and Ana's email gets the
token message with the raw token. -/
theorem forgot_password_amended_witness :
    forgotPassword hashDemo [anaUser] 1000 "bob@x.com" "tok" =
      (⟨"Si el email existe, recibirás instrucciones para resetear tu contraseña",
        none⟩, [anaUser]) ∧
    (forgotPassword hashDemo [anaUser] 1000 "ana@x.com" "tok").fst =
      ⟨"Token de reset enviado al email", some "tok"⟩ := by
  have h := forgot_password_amended hashDemo [anaUser] 1000 "bob@x.com" "tok"
  have h2 := forgot_password_amended hashDemo [anaUser] 1000 "ana@x.com" "tok"
  exact ⟨h.1 (by decide), (h2.2 anaUser (by decide)).1⟩

/-- C4: whenever registration succeeds, the created and persisted user has
role "citizen" — regardless of any `role` value supplied in the request
data (`d.role` is universally quantified and never read by `register`) —
and the response's user object carries `role: "citizen"`. -/
theorem register_role_forced_citizen (gen : Nat → TokenPair)
    (pwHash : String → String) (db : List User) (freshId : Nat)
    (d : RegisterData)
    (hemail : findByEmail db d.email = none)
    (hphone : findByPhone db d.phone = none) :
    (register gen pwHash db freshId d).fst
        = .ok (authResponse gen (createUser pwHash freshId d)) ∧
    (register gen pwHash db freshId d).snd = db ++ [createUser pwHash freshId d] ∧
    (createUser pwHash freshId d).role = "citizen" ∧
    ("role", Value.str "citizen")
      ∈ (authResponse gen (createUser pwHash freshId d)).user := by
  refine ⟨?_, ?_, rfl, ?_⟩
  · simp [register, hemail, hphone]
  · simp [register, hemail, hphone]
  · simp [authResponse, userPublic, createUser]

/-- Witness for C4: a request that explicitly supplies `role: "admin"`
still registers a citizen. -/
theorem register_role_forced_citizen_witness :
    regAdminAttempt.role = some "admin" ∧
    (register genDemo pwHashDemo [] 2 regAdminAttempt).fst
        = .ok (authResponse genDemo (createUser pwHashDemo 2 regAdminAttempt)) ∧
    (createUser pwHashDemo 2 regAdminAttempt).role = "citizen" := by
  have h := register_role_forced_citizen genDemo pwHashDemo [] 2
    regAdminAttempt (by decide) (by decide)
  exact ⟨rfl, h.1, h.2.2.1⟩

/-- C5 counterexample: the `user` object a successful registration returns
has exactly the keys `id, name, email, phone, role, isEmailVerified` — it
carries NO `lastLogin` key, so the claimed shape
`{id, name, email, phone, role, isEmailVerified, lastLogin}` is wrong at
this concrete successful registration. -/
theorem user_public_shape_counterexample :
    Except.map (fun r => r.user.map Prod.fst)
        (register genDemo pwHashDemo [] 1 regAna).fst
      = Except.ok ["id", "name", "email", "phone", "role", "isEmailVerified"] ∧
    "lastLogin" ∉ ["id", "name", "email", "phone", "role", "isEmailVerified"] := by
  exact ⟨rfl, by decide⟩

/-- C5 amended: for every successful `register` and `login`, the returned
user object has exactly the keys
`id, name, email, phone, role, isEmailVerified` (no `lastLogin`), and in
particular never contains the password hash, the reset-token fields, the
failed-login counter, or the lock timestamp. -/
theorem user_public_shape_amended (gen : Nat → TokenPair)
    (pwHash : String → String) (compare : String → String → Bool)
    (db db2 : List User) (freshId : Nat) (d : RegisterData) (now : Time)
    (email password : String) (resp resp2 : AuthResponse) :
    ((register gen pwHash db freshId d).fst = .ok resp →
      resp.user.map Prod.fst
          = ["id", "name", "email", "phone", "role", "isEmailVerified"] ∧
      "password" ∉ resp.user.map Prod.fst ∧
      "passwordResetToken" ∉ resp.user.map Prod.fst ∧
      "passwordResetExpires" ∉ resp.user.map Prod.fst ∧
      "loginAttempts" ∉ resp.user.map Prod.fst ∧
      "lockUntil" ∉ resp.user.map Prod.fst ∧
      "lastLogin" ∉ resp.user.map Prod.fst) ∧
    ((login gen compare db2 now email password).result = .ok resp2 →
      resp2.user.map Prod.fst
          = ["id", "name", "email", "phone", "role", "isEmailVerified"] ∧
      "password" ∉ resp2.user.map Prod.fst ∧
      "passwordResetToken" ∉ resp2.user.map Prod.fst ∧
      "passwordResetExpires" ∉ resp2.user.map Prod.fst ∧
      "loginAttempts" ∉ resp2.user.map Prod.fst ∧
      "lockUntil" ∉ resp2.user.map Prod.fst ∧
      "lastLogin" ∉ resp2.user.map Prod.fst) := by
  constructor
  · intro h
    have hk : resp.user.map Prod.fst
        = ["id", "name", "email", "phone", "role", "isEmailVerified"] := by
      unfold register at h
      split at h
      · simp at h
      · split at h
        · simp at h
        · simp at h
          rw [← h]
          rfl
    rw [hk]
    exact ⟨rfl, by decide, by decide, by decide, by decide, by decide, by decide⟩
  · intro h
    have hk : resp2.user.map Prod.fst
        = ["id", "name", "email", "phone", "role", "isEmailVerified"] := by
      unfold login at h
      split at h
      · simp at h
      · split at h
        · simp at h
        · split at h
          · simp at h
            rw [← h]
            rfl
          · simp at h
    rw [hk]
    exact ⟨rfl, by decide, by decide, by decide, by decide, by decide, by decide⟩

/-- Witness for the amended C5: concrete successful registration and login
both produce the six-key user object. -/
theorem user_public_shape_amended_witness :
    (authResponse genDemo (createUser pwHashDemo 1 regAna)).user.map Prod.fst
        = ["id", "name", "email", "phone", "role", "isEmailVerified"] ∧
    "password" ∉ (authResponse genDemo (createUser pwHashDemo 1 regAna)).user.map
        Prod.fst ∧
    (authResponse genDemo (handleSuccessfulLogin 1000 anaUser)).user.map Prod.fst
        = ["id", "name", "email", "phone", "role", "isEmailVerified"] ∧
    "lockUntil" ∉ (authResponse genDemo
        (handleSuccessfulLogin 1000 anaUser)).user.map Prod.fst := by
  have h := user_public_shape_amended genDemo pwHashDemo cmpDemo [] [anaUser] 1
    regAna 1000 "ana@x.com" "Passw0rd!"
    (authResponse genDemo (createUser pwHashDemo 1 regAna))
    (authResponse genDemo (handleSuccessfulLogin 1000 anaUser))
  have h1 := h.1 rfl
  have h2 := h.2 rfl
  exact ⟨h1.1, h1.2.1, h2.1, h2.2.2.2.2.2.1⟩

/-- C6: every failing `refresh` — verification failure, missing user, or
inactive user — rejects with the single error `InvalidRefreshToken`, and a
successful `refresh` returns the freshly generated token pair for the
referenced user. -/
theorem refresh_uniform_error (gen : Nat → TokenPair)
    (verify : String → Option Nat) (db : List User) (tok : String) :
    (∀ e, refresh gen verify db tok = .error e → e = .InvalidRefreshToken) ∧
    (verify tok = none → refresh gen verify db tok = .error .InvalidRefreshToken) ∧
    (∀ uid, verify tok = some uid → findById db uid = none →
      refresh gen verify db tok = .error .InvalidRefreshToken) ∧
    (∀ uid u, verify tok = some uid → findById db uid = some u →
      u.isActive = false →
      refresh gen verify db tok = .error .InvalidRefreshToken) ∧
    (∀ uid u, verify tok = some uid → findById db uid = some u →
      u.isActive = true → refresh gen verify db tok = .ok (gen u.id)) := by
  refine ⟨?_, ?_, ?_, ?_, ?_⟩
  · intro e h
    unfold refresh at h
    split at h
    · simp at h
    · injection h with h
      exact h.symm
  · intro hv
    simp [refresh, refreshInner, hv]
  · intro uid hv hf
    simp [refresh, refreshInner, hv, hf]
  · intro uid u hv hf ha
    simp [refresh, refreshInner, hv, hf, ha]
  · intro uid u hv hf ha
    simp [refresh, refreshInner, hv, hf, ha]

/-- Witness for C6: the good refresh token for Ana yields a fresh pair,
and a bad one yields `InvalidRefreshToken`. -/
theorem refresh_uniform_error_witness :
    refresh genDemo verifyDemo [anaUser] "good-refresh"
        = .ok (genDemo anaUser.id) ∧
    refresh genDemo verifyDemo [anaUser] "bad"
        = .error .InvalidRefreshToken := by
  have h := refresh_uniform_error genDemo verifyDemo [anaUser] "good-refresh"
  have h2 := refresh_uniform_error genDemo verifyDemo [anaUser] "bad"
  exact ⟨h.2.2.2.2 1 anaUser (by decide) (by decide) (by decide),
    h2.2.1 (by decide)⟩

/-- C8 counterexample: with both signing secrets unset, the Token Service
module still initializes successfully — `ConfigurationError` is never
raised at startup — and the failure instead surfaces on the first
`generateTokens` call, refuting the fail-fast claim. -/
theorem token_startup_counterexample :
    tokenUtilsInit ⟨none, none⟩ = .ok ⟨none, none⟩ ∧
    tokenUtilsInit ⟨none, none⟩ ≠ .error .ConfigurationError ∧
    generateTokensU signDemo ⟨none, none⟩ 1 = .error .missingSecretKey := by
  refine ⟨rfl, ?_, rfl⟩
  intro h
  exact Except.noConfusion h

/-- C8 amended: startup never fails regardless of the configuration — the
secrets are copied unvalidated into the module state — and when either
secret is unset, each later `generateTokens` call fails with the
jsonwebtoken missing-secret error. -/
theorem token_startup_amended (cfg : EnvJwtConfig)
    (sign : Nat → String → String) (uid : Nat) :
    tokenUtilsInit cfg = .ok ⟨cfg.JWT_SECRET, cfg.JWT_REFRESH_SECRET⟩ ∧
    (cfg.JWT_SECRET = none →
      generateTokensU sign ⟨cfg.JWT_SECRET, cfg.JWT_REFRESH_SECRET⟩ uid
        = .error .missingSecretKey) ∧
    (∀ s, cfg.JWT_SECRET = some s → cfg.JWT_REFRESH_SECRET = none →
      generateTokensU sign ⟨cfg.JWT_SECRET, cfg.JWT_REFRESH_SECRET⟩ uid
        = .error .missingSecretKey) := by
  refine ⟨rfl, ?_, ?_⟩
  · intro h
    simp [generateTokensU, jwtSign, h]
  · intro s hs hr
    simp [generateTokensU, jwtSign, hs, hr]

/-- Witness for the amended C8: a missing access secret and a missing
refresh secret each leave startup successful and make token generation
fail. -/
theorem token_startup_amended_witness :
    tokenUtilsInit ⟨none, some "r"⟩ = .ok ⟨none, some "r"⟩ ∧
    generateTokensU signDemo ⟨none, some "r"⟩ 1 = .error .missingSecretKey ∧
    generateTokensU signDemo ⟨some "a", none⟩ 1 = .error .missingSecretKey := by
  have h1 := token_startup_amended ⟨none, some "r"⟩ signDemo 1
  have h2 := token_startup_amended ⟨some "a", none⟩ signDemo 1
  exact ⟨h1.1, h1.2.1 rfl, h2.2.2 "a" rfl rfl⟩

/-- C10: `refresh` never consults the lockout state — for an active user
referenced by a valid refresh token it succeeds even while `lockedUntil`
is in the future — whereas `login` on the very same store and instant is
rejected with `AccountLocked`. -/
theorem refresh_ignores_lockout (gen : Nat → TokenPair)
    (compare : String → String → Bool) (verify : String → Option Nat)
    (db : List User) (now : Time) (tok password : String) (uid : Nat)
    (u : User) (tlock : Time)
    (hv : verify tok = some uid)
    (hf : findById db uid = some u)
    (ha : u.isActive = true)
    (hlock : u.lockUntil = some tlock)
    (hfut : now < tlock)
    (hfe : findActiveByEmail db u.email = some u) :
    refresh gen verify db tok = .ok (gen u.id) ∧
    (login gen compare db now u.email password).result
        = .error .AccountLocked := by
  have hl : u.isLocked now = true := by
    simp [User.isLocked, hlock]
    exact hfut
  constructor
  · simp [refresh, refreshInner, hv, hf, ha]
  · simp [login, hfe, hl]

/-- Witness for C10: Ana is locked until 7201000, yet at time 1000 her
refresh token is exchanged for a new pair while her login — with the
correct password — is rejected as locked. -/
theorem refresh_ignores_lockout_witness :
    refresh genDemo verifyDemo [lockedAna] "good-refresh"
        = .ok (genDemo lockedAna.id) ∧
    (login genDemo cmpDemo [lockedAna] 1000 lockedAna.email "Passw0rd!").result
        = .error .AccountLocked := by
  exact refresh_ignores_lockout genDemo cmpDemo verifyDemo [lockedAna] 1000
    "good-refresh" "Passw0rd!" 1 lockedAna (1000 + 2 * 60 * 60 * 1000)
    (by decide) (by decide) (by decide) (by decide) (by decide) (by decide)

end FixCity
